import Mathlib

/-!
# Forecast debug view: signal-to-chart rendering and the debug handler

A shallow embedding of `pkg/server/handler/prediction/prediction.go`:

* `plot`   renders one signal as a line chart,
* `plots`  overlays several signals over the x-axis of the first one,
* `Display` is the HTTP handler driving both.

Go slices are lists, a Go `int` index is a natural number (every index
in the file counts up from zero and stays below a slice length), and a
run-time panic is the error branch of `Except Panic`.  Every slice access
`a[i]` of the source goes through `index`, which panics exactly when Go
does.  Signal pointers are taken to be non-nil.

`float64` arithmetic and `fmt.Sprintf` belong to the Go runtime; they are
a parameter (`Env`) of the model, so every general statement holds for
whatever these operations do.  The chart library gives every chart an id
it draws itself; that id is an explicit argument `chartID` of `plot` and
`plots`, next to the arguments of the Go functions.
-/

set_option linter.dupNamespace false

namespace Crane

/-! ## Runtime -/

/-- Run-time panics that the rendering code can raise. -/
inductive Panic where
  | indexOutOfRange
  deriving DecidableEq, Repr

/-- Bounds-checked slice access `xs[i]`. -/
def index {α : Type} (xs : List α) (i : Nat) : Except Panic α :=
  match xs[i]? with
  | some v => .ok v
  | none => .error .indexOutOfRange

/-! ## Signals (`dsp.Signal`) -/

/-- Modelled from the spec: the type `dsp.Signal` is declared outside this
file; the spec describes it as "an ordered sequence of numeric samples
and a sample rate".  `F` stands for `float64`. -/
structure Signal (F : Type) where
  SampleRate : F
  Samples : List F
  deriving DecidableEq, Repr

/-- Modelled from the spec: the method `Signal.Num` is declared outside
this file; the spec gives "sample count = sequence length". -/
def Signal.Num {F : Type} (s : Signal F) : Nat := s.Samples.length

/-- The values the chart library fills in for initialization fields the
caller leaves unset. -/
structure ChartLib where
  Width : String
  Height : String
  Theme : String
  deriving DecidableEq, Repr

/-- What the handler needs from outside this file: `float64(i)`, float
division, `fmt.Sprintf("%.1f", ·)`, `Signal.String` and the defaults of
the chart library. -/
structure Env (F : Type) where
  ofInt : Nat → F
  div : F → F → F
  sprintf1 : F → String
  signalString : Signal F → String
  lib : ChartLib

/-- The x-label of sample index `i` at sample rate `rate`:
`fmt.Sprintf("%.1f", float64(i)/rate)`. -/
def Env.label {F : Type} (env : Env F) (i : Nat) (rate : F) : String :=
  env.sprintf1 (env.div (env.ofInt i) rate)

/-! ## Chart descriptors (the part of go-echarts the handler drives) -/

/-- One point of a line series, `opts.LineData`. -/
structure LineData (F : Type) where
  Value : F
  Symbol : String
  deriving DecidableEq, Repr

/-- The `Data` field of a legend: unset, one name (`plot`) or a list of
names (`plots`). -/
inductive LegendData where
  | unset
  | name (s : String)
  | names (l : List String)
  deriving DecidableEq, Repr

/-- Legend options, `opts.Legend`. -/
structure Legend where
  Show : Bool
  Data : LegendData
  deriving DecidableEq, Repr

/-- Tooltip options, `opts.Tooltip`. -/
structure Tooltip where
  Show : Bool
  Trigger : String
  TriggerOn : String
  deriving DecidableEq, Repr

/-- Title options, `opts.Title`. -/
structure Title where
  Title : String
  deriving DecidableEq, Repr

/-- Initialization options, `opts.Initialization`; an empty field is one
the caller left unset. -/
structure Initialization where
  Width : String := ""
  Height : String := ""
  Theme : String := ""
  ChartID : String := ""
  deriving DecidableEq, Repr

/-- Theme name `types.ThemeRoma`. -/
def ThemeRoma : String := "roma"

/-- Theme name `types.ThemeShine`. -/
def ThemeShine : String := "shine"

/-- Chart-level presentation options, the target of global options.
Fields the handler never sets are left out. -/
structure BaseConfiguration where
  Initialization : Initialization
  Legend : Legend
  Tooltip : Tooltip
  Title : Title
  deriving DecidableEq, Repr

/-- A global option, `charts.GlobalOpts`: an update of the chart-level
presentation options. -/
abbrev GlobalOpts := BaseConfiguration → BaseConfiguration

/-- Option `charts.WithInitializationOpts`: the chart takes the given
options; a width, height or theme left unset is the library default, and
without a given chart id the chart keeps an id drawn by the library. -/
def WithInitializationOpts (lib : ChartLib) (opt : Initialization) : GlobalOpts :=
  fun bc =>
    { bc with
      Initialization :=
        { Width := if opt.Width = "" then lib.Width else opt.Width
          Height := if opt.Height = "" then lib.Height else opt.Height
          Theme := if opt.Theme = "" then lib.Theme else opt.Theme
          ChartID :=
            if opt.ChartID = "" then bc.Initialization.ChartID else opt.ChartID } }

/-- Option `charts.WithLegendOpts`. -/
def WithLegendOpts (opt : Legend) : GlobalOpts :=
  fun bc => { bc with Legend := opt }

/-- Option `charts.WithTooltipOpts`. -/
def WithTooltipOpts (opt : Tooltip) : GlobalOpts :=
  fun bc => { bc with Tooltip := opt }

/-- Option `charts.WithTitleOpts`. -/
def WithTitleOpts (opt : Title) : GlobalOpts :=
  fun bc => { bc with Title := opt }

/-- Line style of a series, `opts.LineStyle`. -/
structure LineStyle where
  Color : String
  deriving DecidableEq, Repr

/-- Area style of a series, `opts.AreaStyle`; the opacity keeps the exact
value of the decimal literal in the source. -/
structure AreaStyle where
  Opacity : ℚ
  deriving DecidableEq

/-- One series of a chart, `charts.SingleSeries`, with the two style
options the handler uses. -/
structure SingleSeries (F : Type) where
  Name : String
  Data : List (LineData F)
  LineStyle : Option LineStyle
  AreaStyle : Option AreaStyle
  deriving DecidableEq

/-- The line chart descriptor, `charts.Line`. -/
structure Line (F : Type) where
  config : BaseConfiguration
  xAxisData : List String
  MultiSeries : List (SingleSeries F)
  deriving DecidableEq

/-- Modelled from the spec: `charts.NewLine()` is chart-library code
outside the sources.  The spec has every chart descriptor "built fresh
per request" and counts ids among the fields that can differ between two
renderings; the fresh chart carries the id the library draws for it,
`chartID`, and the library defaults `lib`; no legend, tooltip, title,
label or series is set yet. -/
def NewLine (F : Type) (lib : ChartLib) (chartID : String) : Line F :=
  { config :=
      { Initialization :=
          { Width := lib.Width, Height := lib.Height, Theme := lib.Theme,
            ChartID := chartID }
        Legend := { Show := false, Data := .unset }
        Tooltip := { Show := false, Trigger := "", TriggerOn := "" }
        Title := { Title := "" } }
    xAxisData := []
    MultiSeries := [] }

/-- Method `SetGlobalOptions`: apply the options in order. -/
def Line.SetGlobalOptions {F : Type} (line : Line F) (o : List GlobalOpts) : Line F :=
  { line with config := o.foldl (fun bc opt => opt bc) line.config }

/-- Method `SetXAxis`. -/
def Line.SetXAxis {F : Type} (line : Line F) (x : List String) : Line F :=
  { line with xAxisData := x }

/-- Method `AddSeries`: append one series carrying its style options. -/
def Line.AddSeries {F : Type} (line : Line F) (name : String) (data : List (LineData F))
    (lineStyle : Option LineStyle) (areaStyle : Option AreaStyle) : Line F :=
  { line with
    MultiSeries := line.MultiSeries ++
      [{ Name := name, Data := data, LineStyle := lineStyle, AreaStyle := areaStyle }] }

/-! ## `plot` -/

/-- One iteration of the loop of `plot`: append the label of index `i` to
`x` and the point of sample `i` to `y`. -/
def plotStep {F : Type} (env : Env F) (s : Signal F)
    (acc : List String × List (LineData F)) (i : Nat) :
    Except Panic (List String × List (LineData F)) := do
  let v ← index s.Samples i
  pure (acc.1 ++ [env.label i s.SampleRate], acc.2 ++ [{ Value := v, Symbol := "none" }])

/-- Function `plot`: the single-series renderer.  The loop
`for i := 0; i < s.Num(); i++` runs `plotStep` for `i = 0, …, s.Num()-1`.
A nil and an empty option slice `o` both apply nothing.  `chartID` is the
id the library draws inside `charts.NewLine()`. -/
def plot {F : Type} (env : Env F) (chartID : String) (s : Signal F) (name : String)
    (color : String) (o : List GlobalOpts) : Except Panic (Line F) := do
  let (x, y) ← (List.range s.Num).foldlM (plotStep env s) ([], [])
  let line := NewLine F env.lib chartID
  let line := line.SetGlobalOptions
    [ WithInitializationOpts env.lib { Width := "3000px", Theme := ThemeRoma },
      WithLegendOpts { Show := true, Data := .name name },
      WithTooltipOpts { Show := true, Trigger := "axis", TriggerOn := "mousemove" },
      WithTitleOpts { Title := env.signalString s } ]
  let line := line.SetGlobalOptions o
  pure ((line.SetXAxis x).AddSeries name y (some { Color := color }) none)

/-! ## `plots` -/

/-- One iteration of the inner loop of `plots`:
`y[j] = append(y[j], LineData{signals[j].Samples[i], "none"})`. -/
def plotsInnerStep {F : Type} (signals : List (Signal F)) (i : Nat)
    (y : List (List (LineData F))) (j : Nat) : Except Panic (List (List (LineData F))) := do
  let sj ← index signals j
  let v ← index sj.Samples i
  let yj ← index y j
  pure (y.set j (yj ++ [{ Value := v, Symbol := "none" }]))

/-- One iteration of the outer loop of `plots`: one more label from the
rate of `s`, then the inner loop over all signals. -/
def plotsStep {F : Type} (env : Env F) (signals : List (Signal F)) (s : Signal F)
    (acc : List String × List (List (LineData F))) (i : Nat) :
    Except Panic (List String × List (List (LineData F))) := do
  let x := acc.1 ++ [env.label i s.SampleRate]
  let y ← (List.range signals.length).foldlM (plotsInnerStep signals i) acc.2
  pure (x, y)

/-- One iteration of the closing loop of `plots`:
`line.AddSeries(names[j], y[j], area style)`. -/
def plotsAddStep {F : Type} (names : List String) (y : List (List (LineData F)))
    (line : Line F) (j : Nat) : Except Panic (Line F) := do
  let nm ← index names j
  let yj ← index y j
  pure (line.AddSeries nm yj none (some { Opacity := 1 / 10 }))

/-- Function `plots`: the overlay renderer.  `none` is the nil chart.  `y`
starts as `len(signals)` empty rows; the outer loop runs `plotsStep` for
`i = 0, …, n-1` and the closing loop `plotsAddStep` for every `j`.
`chartID` is the id the library draws inside `charts.NewLine()`. -/
def plots {F : Type} (env : Env F) (chartID : String) (signals : List (Signal F))
    (names : List String) (o : List GlobalOpts) : Except Panic (Option (Line F)) :=
  if signals.length < 1 then pure none
  else do
    let s ← index signals 0
    let n := s.Num
    let y0 : List (List (LineData F)) := List.replicate signals.length []
    let (x, y) ← (List.range n).foldlM (plotsStep env signals s) ([], y0)
    let line := NewLine F env.lib chartID
    let line := line.SetGlobalOptions
      [ WithInitializationOpts env.lib { Width := "3000px", Theme := ThemeShine },
        WithLegendOpts { Show := true, Data := .names names },
        WithTooltipOpts { Show := true, Trigger := "axis", TriggerOn := "mousemove" } ]
    let line := line.SetGlobalOptions o
    let line := line.SetXAxis x
    let line ← (List.range signals.length).foldlM (plotsAddStep names y) line
    pure (some line)

/-! ## Closed forms of the renderer results -/

/-- The point drawn for sample value `v`: marker suppressed. -/
def point {F : Type} (v : F) : LineData F := { Value := v, Symbol := "none" }

/-- The rows of `y` in `plots` once the inner loop at sample index `i` has
served the first `m` signals: these rows hold `i + 1` points, the others `i`. -/
def rowsAt {F : Type} (signals : List (Signal F)) (i m : Nat) : List (List (LineData F)) :=
  (signals.take m).map (fun s => (s.Samples.take (i + 1)).map point) ++
    (signals.drop m).map (fun s => (s.Samples.take i).map point)

/-- The series `plots` adds for one name and one row of points: area
style set, no line style. -/
def areaSeries {F : Type} (nm : String) (row : List (LineData F)) : SingleSeries F :=
  { Name := nm, Data := row, LineStyle := none, AreaStyle := some { Opacity := 1 / 10 } }

/-- The configuration `plots` sets before the caller's options. -/
def plotsConfig {F : Type} (env : Env F) (chartID : String) (names : List String) :
    BaseConfiguration :=
  ((NewLine F env.lib chartID).SetGlobalOptions
    [ WithInitializationOpts env.lib { Width := "3000px", Theme := ThemeShine },
      WithLegendOpts { Show := true, Data := .names names },
      WithTooltipOpts { Show := true, Trigger := "axis", TriggerOn := "mousemove" } ]).config

/-- The chart `plots` builds when every read is in bounds. -/
def overlayChart {F : Type} (env : Env F) (chartID : String) (s0 : Signal F)
    (signals : List (Signal F)) (names : List String) (o : List GlobalOpts) : Line F :=
  { config := o.foldl (fun bc opt => opt bc) (plotsConfig env chartID names)
    xAxisData := (List.range s0.Num).map (fun i => env.label i s0.SampleRate)
    MultiSeries :=
      List.zipWith areaSeries names
        (signals.map (fun t => (t.Samples.take s0.Num).map point)) }

/-- The configuration `plot` sets before the caller's options. -/
def plotConfig {F : Type} (env : Env F) (chartID : String) (s : Signal F) (name : String) :
    BaseConfiguration :=
  ((NewLine F env.lib chartID).SetGlobalOptions
    [ WithInitializationOpts env.lib { Width := "3000px", Theme := ThemeRoma },
      WithLegendOpts { Show := true, Data := .name name },
      WithTooltipOpts { Show := true, Trigger := "axis", TriggerOn := "mousemove" },
      WithTitleOpts { Title := env.signalString s } ]).config

/-- The chart `plot` builds: one label and one point per sample. -/
def lineChart {F : Type} (env : Env F) (chartID : String) (s : Signal F) (name : String)
    (color : String) (o : List GlobalOpts) : Line F :=
  { config := o.foldl (fun bc opt => opt bc) (plotConfig env chartID s name)
    xAxisData := (List.range s.Num).map (fun i => env.label i s.SampleRate)
    MultiSeries :=
      [{ Name := name, Data := s.Samples.map point,
         LineStyle := some { Color := color }, AreaStyle := none }] }

/-- The configuration `bc` with its chart id replaced by `chartID`. -/
def BaseConfiguration.withChartID (bc : BaseConfiguration) (chartID : String) :
    BaseConfiguration :=
  { bc with Initialization := { bc.Initialization with ChartID := chartID } }

/-- The chart `line` with its chart id replaced by `chartID`. -/
def Line.withChartID {F : Type} (line : Line F) (chartID : String) : Line F :=
  { line with config := line.config.withChartID chartID }

/-- An option leaves the chart id alone: applying it commutes with
replacing the id. -/
def KeepsChartID (opt : GlobalOpts) : Prop :=
  ∀ (bc : BaseConfiguration) (chartID : String),
    opt (bc.withChartID chartID) = (opt bc).withChartID chartID

/-! ## An exact instance for evaluating examples -/

/-- A non-negative fraction `num/den`. -/
structure Frac where
  num : Nat
  den : Nat
  deriving DecidableEq, Repr

/-- One-decimal rendering of a fraction, rounding to nearest with ties to
even, as `%.1f` does on the exact value. -/
def Frac.sprintf1 (a : Frac) : String :=
  let q := 10 * a.num / a.den
  let r := 10 * a.num % a.den
  let t := if a.den < 2 * r ∨ (2 * r = a.den ∧ q % 2 = 1) then q + 1 else q
  toString (t / 10) ++ "." ++ toString (t % 10)

/-- Exact arithmetic on fractions, for positive rates.  Whenever
`i / rate` is a float64 value (as for every example below) float division
is exact and this instance prints what Go prints.  `signalString` and
`lib` are stand-ins for `Signal.String` and the library defaults. -/
def exactEnv : Env Frac where
  ofInt := fun i => ⟨i, 1⟩
  div := fun a b => ⟨a.num * b.den, a.den * b.num⟩
  sprintf1 := Frac.sprintf1
  signalString := fun s => "signal(" ++ toString s.Samples.length ++ ")"
  lib := { Width := "900px", Height := "500px", Theme := "white" }

/-- The signal with whole-number samples `vs` and whole-number rate. -/
def sig (rate : Nat) (vs : List Nat) : Signal Frac :=
  { SampleRate := ⟨rate, 1⟩, Samples := vs.map (fun v => ⟨v, 1⟩) }

/-! ## The handler `DebugHandler.Display` -/

/-- A Go `error` value, identified by its message. -/
abbrev Err := String

/-- The algorithm type tag of a prediction metric, `v1alpha1.AlgorithmType`. -/
abbrev AlgorithmType := String

/-- The tag of the supported family, `v1alpha1.AlgorithmTypeDSP`; the
handler only compares tags with it. -/
def AlgorithmTypeDSP : AlgorithmType := "dsp"

/-- The algorithm-specific configuration block of a DSP metric; the
handler only tests whether it is present. -/
structure DSP where
  params : String
  deriving DecidableEq, Repr

/-- Algorithm descriptor of a metric; `DSP` is a pointer, `none` is nil. -/
structure Algorithm where
  AlgorithmType : AlgorithmType
  DSP : Option DSP
  deriving DecidableEq, Repr

/-- One entry of `spec.predictionMetrics`. -/
structure PredictionMetric where
  ResourceIdentifier : String
  Algorithm : Algorithm
  deriving DecidableEq, Repr

/-- The `Spec` of a forecasting job. -/
structure TimeSeriesPredictionSpec where
  PredictionMetrics : List PredictionMetric
  deriving DecidableEq, Repr

/-- The forecasting job resource. -/
structure TimeSeriesPrediction where
  Spec : TimeSeriesPredictionSpec
  deriving DecidableEq, Repr

/-- A page of charts, `components.Page`; the overlay chart may be nil. -/
structure Page (F : Type) where
  Charts : List (Option (Line F))
  deriving DecidableEq

/-- A fresh page, `components.NewPage()`. -/
def NewPage (F : Type) : Page F := { Charts := [] }

/-- Method `AddCharts` with one chart. -/
def Page.AddCharts {F : Type} (page : Page F) (chart : Option (Line F)) : Page F :=
  { page with Charts := page.Charts ++ [chart] }

/-- The collaborators of the handler: the job client, the metric context,
the predictor manager, the engine's debug entrypoint, the page renderer,
the status picked by the shared response writer for an error, and the ids
the chart library draws for the two charts of the request. -/
structure Collaborators (F : Type) where
  MetricContext : Type
  InternalConfig : Type
  MetricNamer : Type
  Predictor : Type
  Get : String → String → Except Err TimeSeriesPrediction
  NewMetricContext : TimeSeriesPrediction → Except Err MetricContext
  ConvertApiMetric2InternalConfig : MetricContext → PredictionMetric → InternalConfig
  GetMetricNamer : MetricContext → PredictionMetric → MetricNamer
  GetPredictor : AlgorithmType → Predictor
  Debug : Predictor → MetricNamer → InternalConfig →
    Except Err (Signal F × Signal F × Signal F)
  Render : Page F → Option Err
  errorStatus : Err → Nat
  historyChartID : String
  overlayChartID : String

/-- A call the handler makes while serving one request, in order: the
collaborator calls and the two renderer calls with their signals. -/
inductive Call (F : Type) where
  | get (nameSpace name : String)
  | newMetricContext
  | convertApiMetric2InternalConfig
  | getMetricNamer
  | getPredictor (alg : AlgorithmType)
  | debug
  | plot (s : Signal F) (name : String)
  | plots (signals : List (Signal F)) (names : List String)
  | render
  | logError
  deriving DecidableEq

/-- What the response stream holds when the handler returns. -/
inductive Body (F : Type) where
  | empty
  | errorPayload (err : Err)
  | page (p : Page F)
  deriving DecidableEq

/-- The HTTP response: status code and body. -/
structure Response (F : Type) where
  status : Nat
  body : Body F
  deriving DecidableEq

/-- Status code `http.StatusBadRequest`. -/
def StatusBadRequest : Nat := 400

/-- Status code `http.StatusOK`, sent implicitly with the first body write. -/
def StatusOK : Nat := 200

/-- The Bad Request outcome, `c.Writer.WriteHeader(http.StatusBadRequest)`:
status 400 and no body. -/
def badRequest (F : Type) : Response F := { status := StatusBadRequest, body := .empty }

/-- Modelled from the spec: `ginwrapper.WriteResponse(c, err, nil)` with a
non-nil error is not among the sources; the spec has it surface the error
as "a structured error response (format owned by the external
response-writing collaborator) rather than a bad-request", that is a
response whose body is a structured payload carrying the error.  The
status code is the writer's choice, `status err`. -/
def WriteResponse {F : Type} (status : Err → Nat) (err : Err) : Response F :=
  { status := status err, body := .errorPayload err }

/-- How a run of the handler ends: with a response, with a failed
`page.Render` (the error is logged and the handler writes nothing more;
how much of the page reached the stream is not the handler's doing), or
with a panic. -/
inductive Outcome (F : Type) where
  | responded (r : Response F)
  | renderFailed (err : Err)
  | panicked (p : Panic)
  deriving DecidableEq

/-- One run of the handler: the calls made and how it ended. -/
structure Run (F : Type) where
  calls : List (Call F)
  outcome : Outcome F
  deriving DecidableEq

/-- The calls of the rendering branch up to and including the engine. -/
def engineCalls (F : Type) (nameSpace name : String) : List (Call F) :=
  [ .get nameSpace name, .newMetricContext, .convertApiMetric2InternalConfig,
    .getMetricNamer, .getPredictor AlgorithmTypeDSP, .debug ]

/-- The rendering tail of `Display`, from the three signals on: `plot` on
the history, `plots` on `[test, estimate]`, then the page is rendered
into the response with the implicit status 200; when `page.Render` fails
the error is logged and the run ends there. -/
def renderSignals {F : Type} (env : Env F) (dh : Collaborators F) (pre : List (Call F))
    (history test estimate : Signal F) : Run F :=
  let pre := pre ++ [.plot history "history"]
  match plot env dh.historyChartID history "history" "green"
      [WithTitleOpts { Title := "history" }] with
  | .error p => { calls := pre, outcome := .panicked p }
  | .ok c1 =>
    let page := (NewPage F).AddCharts (some c1)
    let pre := pre ++ [.plots [test, estimate] ["actual", "forecasted"]]
    match plots env dh.overlayChartID [test, estimate] ["actual", "forecasted"]
        [WithTitleOpts { Title := "actual/forecasted" }] with
    | .error p => { calls := pre, outcome := .panicked p }
    | .ok c2 =>
      let page := page.AddCharts c2
      match dh.Render page with
      | some err => { calls := pre ++ [.render, .logError], outcome := .renderFailed err }
      | none =>
        { calls := pre ++ [.render],
          outcome := .responded { status := StatusOK, body := .page page } }

/-- Method `DebugHandler.Display` on the path parameters `namespace` and
`tsp`.  `m0` is `tsp.Spec.PredictionMetrics[0]`, read under the guard
`len(tsp.Spec.PredictionMetrics) > 0`. -/
def Display {F : Type} (env : Env F) (dh : Collaborators F) (nameSpace name : String) : Run F :=
  if nameSpace.length = 0 ∨ name.length = 0 then
    { calls := [], outcome := .responded (badRequest F) }
  else
    match dh.Get nameSpace name with
    | .error err =>
      { calls := [.get nameSpace name],
        outcome := .responded (WriteResponse dh.errorStatus err) }
    | .ok tsp =>
      match tsp.Spec.PredictionMetrics with
      | [] => { calls := [.get nameSpace name], outcome := .responded (badRequest F) }
      | m0 :: _ =>
        if m0.Algorithm.AlgorithmType = AlgorithmTypeDSP ∧ m0.Algorithm.DSP.isSome then
          match dh.NewMetricContext tsp with
          | .error err =>
            { calls := [.get nameSpace name, .newMetricContext],
              outcome := .responded (WriteResponse dh.errorStatus err) }
          | .ok mc =>
            let internalConf := dh.ConvertApiMetric2InternalConfig mc m0
            let namer := dh.GetMetricNamer mc m0
            let pred := dh.GetPredictor AlgorithmTypeDSP
            match dh.Debug pred namer internalConf with
            | .error err =>
              { calls := engineCalls F nameSpace name,
                outcome := .responded (WriteResponse dh.errorStatus err) }
            | .ok (history, test, estimate) =>
              renderSignals env dh (engineCalls F nameSpace name) history test estimate
        else { calls := [.get nameSpace name], outcome := .responded (badRequest F) }

/-! ## Concrete collaborators for evaluating examples -/

/-- A job whose metrics carry the given algorithm descriptors. -/
def job (algs : List Algorithm) : TimeSeriesPrediction :=
  { Spec := { PredictionMetrics :=
      algs.map (fun a => { ResourceIdentifier := "cpu", Algorithm := a }) } }

/-- Collaborators with a fixed lookup result and a fixed engine result;
everything else succeeds, and the error status and the two chart ids are
stand-ins. -/
def fixedCollaborators (lookup : Except Err TimeSeriesPrediction)
    (engine : Except Err (Signal Frac × Signal Frac × Signal Frac)) : Collaborators Frac where
  MetricContext := Unit
  InternalConfig := Unit
  MetricNamer := Unit
  Predictor := Unit
  Get := fun _ _ => lookup
  NewMetricContext := fun _ => .ok ()
  ConvertApiMetric2InternalConfig := fun _ _ => ()
  GetMetricNamer := fun _ _ => ()
  GetPredictor := fun _ => ()
  Debug := fun _ _ _ => engine
  Render := fun _ => none
  errorStatus := fun _ => 200
  historyChartID := "chart-1"
  overlayChartID := "chart-2"

/-- A job whose first metric is a configured DSP metric. -/
def dspJob : TimeSeriesPrediction :=
  job [{ AlgorithmType := AlgorithmTypeDSP, DSP := some { params := "" } }]

/-- A job whose first metric is a percentile metric and whose second one
is a configured DSP metric. -/
def percentileFirstJob : TimeSeriesPrediction :=
  job [ { AlgorithmType := "percentile", DSP := none },
        { AlgorithmType := AlgorithmTypeDSP, DSP := some { params := "" } } ]

/-- Collaborators whose job lookup answers "not found". -/
def notFoundLookup : Collaborators Frac :=
  fixedCollaborators (.error "not found") (.error "unused")

/-- Collaborators whose engine returns an actual signal and a forecast of
two samples each. -/
def alignedEngine : Collaborators Frac :=
  fixedCollaborators (.ok dspJob) (.ok (sig 1 [1, 2, 3], sig 1 [1, 2], sig 1 [10, 20]))

/-! ## Loop invariants and closed forms -/

theorem index_of_lt {α : Type} (xs : List α) (i : Nat) (h : i < xs.length) :
    index xs i = .ok xs[i] := by
  simp [index, List.getElem?_eq_getElem h]

theorem take_succ_map {α β : Type} (f : α → β) (xs : List α) (n : Nat) (h : n < xs.length) :
    (xs.take (n + 1)).map f = (xs.take n).map f ++ [f xs[n]] := by
  rw [List.take_succ, List.map_append, List.getElem?_eq_getElem h]
  rfl

/-- Loop invariant of `plot`: after `n` iterations `x` holds the first `n`
labels and `y` the first `n` points. -/
theorem plot_loop {F : Type} (env : Env F) (s : Signal F) (n : Nat) (hn : n ≤ s.Num) :
    (List.range n).foldlM (plotStep env s) ([], []) =
      (.ok ((List.range n).map (fun i => env.label i s.SampleRate),
            (s.Samples.take n).map point) : Except Panic _) := by
  induction n with
  | zero => rfl
  | succ k ih =>
    have hk : k < s.Samples.length := hn
    rw [List.range_succ, List.foldlM_append, ih (Nat.le_of_succ_le hn)]
    simp only [List.foldlM_cons, List.foldlM_nil, plotStep, index_of_lt _ _ hk, List.map_append,
      List.map_cons, List.map_nil, take_succ_map _ _ _ hk]
    rfl

theorem getElem?_append_cons {α : Type} (a : List α) (v : α) (b : List α) :
    (a ++ v :: b)[a.length]? = some v := by
  rw [List.getElem?_append_right (Nat.le_refl _)]
  simp

theorem set_append_cons {α : Type} (a : List α) (v w : α) (b : List α) :
    (a ++ v :: b).set a.length w = a ++ w :: b := by
  simp

theorem rowsAt_split {F : Type} (signals : List (Signal F)) (i m : Nat) (hm : m < signals.length) :
    rowsAt signals i m =
      (signals.take m).map (fun s => (s.Samples.take (i + 1)).map point) ++
        (signals[m].Samples.take i).map point ::
          (signals.drop (m + 1)).map (fun s => (s.Samples.take i).map point) := by
  rw [rowsAt, List.drop_eq_getElem_cons hm, List.map_cons]

theorem rowsAt_succ {F : Type} (signals : List (Signal F)) (i m : Nat) (hm : m < signals.length) :
    rowsAt signals i (m + 1) =
      (signals.take m).map (fun s => (s.Samples.take (i + 1)).map point) ++
        (signals[m].Samples.take (i + 1)).map point ::
          (signals.drop (m + 1)).map (fun s => (s.Samples.take i).map point) := by
  rw [rowsAt, List.take_succ, List.getElem?_eq_getElem hm, List.map_append, List.append_assoc]
  rfl

/-- One inner iteration on a well-shaped `y`: row `k` gains the point of
sample `i` of signal `k`. -/
theorem plotsInnerStep_ok {F : Type} (signals : List (Signal F)) (i k : Nat)
    (hk : k < signals.length) (hik : i < signals[k].Samples.length)
    (a : List (List (LineData F))) (r : List (LineData F)) (b : List (List (LineData F)))
    (ha : a.length = k) :
    plotsInnerStep signals i (a ++ r :: b) k =
      .ok (a ++ (r ++ [point signals[k].Samples[i]]) :: b) := by
  subst ha
  have h2 := set_append_cons a r (r ++ [point signals[a.length].Samples[i]]) b
  simp only [plotsInnerStep, index, List.getElem?_eq_getElem hk, List.getElem?_eq_getElem hik,
    getElem?_append_cons, bind, Except.bind, pure, Except.pure]
  rw [← h2]
  rfl

/-- Invariant of the inner loop of `plots`. -/
theorem plots_inner_loop {F : Type} (signals : List (Signal F)) (i : Nat)
    (hi : ∀ s ∈ signals, i < s.Num) (m : Nat) (hm : m ≤ signals.length) :
    (List.range m).foldlM (plotsInnerStep signals i) (rowsAt signals i 0) =
      (.ok (rowsAt signals i m) : Except Panic _) := by
  induction m with
  | zero => rfl
  | succ k ih =>
    have hk : k < signals.length := hm
    have hik : i < signals[k].Samples.length := hi _ (List.getElem_mem hk)
    have hlen : ((signals.take k).map
        (fun s => (s.Samples.take (i + 1)).map (point))).length = k := by
      rw [List.length_map, List.length_take]; omega
    rw [List.range_succ, List.foldlM_append, ih (Nat.le_of_succ_le hm)]
    simp only [List.foldlM_cons, List.foldlM_nil, bind, Except.bind]
    rw [rowsAt_split _ _ _ hk, rowsAt_succ _ _ _ hk,
      plotsInnerStep_ok signals i k hk hik _ _ _ hlen, take_succ_map _ _ _ hik]
    rfl

theorem rowsAt_zero {F : Type} (signals : List (Signal F)) (i : Nat) :
    rowsAt signals i 0 = signals.map (fun s => (s.Samples.take i).map point) := by
  simp [rowsAt]

theorem rowsAt_length {F : Type} (signals : List (Signal F)) (i : Nat) :
    rowsAt signals i signals.length =
      signals.map (fun s => (s.Samples.take (i + 1)).map point) := by
  simp [rowsAt]

theorem replicate_nil_eq {F : Type} (signals : List (Signal F)) :
    (List.replicate signals.length [] : List (List (LineData F))) =
      signals.map (fun s => (s.Samples.take 0).map point) := by
  induction signals with
  | nil => rfl
  | cons a t ih => simp [List.replicate_succ]

/-- Invariant of the outer loop of `plots`: after `n` iterations `x` holds
the first `n` labels and row `j` of `y` the first `n` points of signal `j`. -/
theorem plots_loop {F : Type} (env : Env F) (signals : List (Signal F)) (s : Signal F)
    (n : Nat) (hn : ∀ t ∈ signals, n ≤ t.Num) :
    (List.range n).foldlM (plotsStep env signals s)
        ([], List.replicate signals.length []) =
      (.ok ((List.range n).map (fun i => env.label i s.SampleRate),
            signals.map (fun t => (t.Samples.take n).map point)) : Except Panic _) := by
  induction n with
  | zero => rw [replicate_nil_eq]; rfl
  | succ k ih =>
    have hk : ∀ t ∈ signals, k < t.Num := fun t ht => hn t ht
    rw [List.range_succ, List.foldlM_append, ih (fun t ht => Nat.le_of_succ_le (hn t ht))]
    have hin := plots_inner_loop signals k hk signals.length (Nat.le_refl _)
    rw [rowsAt_zero, rowsAt_length] at hin
    simp only [List.foldlM_cons, List.foldlM_nil, plotsStep, bind, Except.bind, hin,
      List.map_append, List.map_cons, List.map_nil]
    rfl

/-- A successful inner iteration read sample `i` of signal `j` in bounds. -/
theorem plotsInnerStep_bound {F : Type} (signals : List (Signal F)) (i j : Nat)
    (y y' : List (List (LineData F))) (h : plotsInnerStep signals i y j = .ok y') :
    ∃ t, signals[j]? = some t ∧ i < t.Num := by
  unfold plotsInnerStep index at h
  cases hs : signals[j]? with
  | none => simp [hs, bind, Except.bind] at h
  | some t =>
    refine ⟨t, rfl, ?_⟩
    by_contra hlt
    have hnone : t.Samples[i]? = none := List.getElem?_eq_none (Nat.le_of_not_lt hlt)
    simp [hs, hnone, bind, Except.bind] at h

/-- A successful inner loop over the first `m` signals read sample `i` of
each of them in bounds. -/
theorem plots_inner_bound {F : Type} (signals : List (Signal F)) (i m : Nat) :
    ∀ (y y' : List (List (LineData F))),
      (List.range m).foldlM (plotsInnerStep signals i) y = .ok y' →
      ∀ j, j < m → ∃ t, signals[j]? = some t ∧ i < t.Num := by
  induction m with
  | zero => intro _ _ _ j hj; omega
  | succ k ih =>
    intro y y' h j hj
    rw [List.range_succ, List.foldlM_append] at h
    cases h1 : (List.range k).foldlM (plotsInnerStep signals i) y with
    | error e => simp [h1, bind, Except.bind] at h
    | ok y1 =>
      rw [h1] at h
      simp only [bind, Except.bind, List.foldlM_cons, List.foldlM_nil] at h
      rcases Nat.lt_succ_iff_lt_or_eq.mp hj with hlt | heq
      · exact ih y y1 h1 j hlt
      · subst heq
        cases h2 : plotsInnerStep signals i y1 j with
        | error e => simp [h2] at h
        | ok y2 => exact plotsInnerStep_bound signals i j y1 y2 h2

/-- A successful outer loop of `n` iterations read samples `0 … n-1` of
every signal in bounds. -/
theorem plots_loop_bound {F : Type} (env : Env F) (signals : List (Signal F)) (s : Signal F)
    (n : Nat) :
    ∀ (acc acc' : List String × List (List (LineData F))),
      (List.range n).foldlM (plotsStep env signals s) acc = .ok acc' →
      ∀ t ∈ signals, n ≤ t.Num := by
  induction n with
  | zero => intro _ _ _ t _; exact Nat.zero_le _
  | succ k ih =>
    intro acc acc' h t ht
    rw [List.range_succ, List.foldlM_append] at h
    cases h1 : (List.range k).foldlM (plotsStep env signals s) acc with
    | error e => simp [h1, bind, Except.bind] at h
    | ok a1 =>
      rw [h1] at h
      simp only [bind, Except.bind, List.foldlM_cons, List.foldlM_nil, plotsStep] at h
      cases h2 : (List.range signals.length).foldlM (plotsInnerStep signals k) a1.2 with
      | error e => simp [h2, pure, Except.pure] at h
      | ok y2 =>
        obtain ⟨j, hj, hjt⟩ := List.getElem_of_mem ht
        obtain ⟨t', ht', hlt⟩ := plots_inner_bound signals k signals.length a1.2 y2 h2 j hj
        rw [List.getElem?_eq_getElem hj, hjt] at ht'
        cases ht'
        exact hlt

theorem zipWith_take_succ {α β γ : Type} (f : α → β → γ) (as : List α) (bs : List β) (k : Nat)
    (ha : k < as.length) (hb : k < bs.length) :
    List.zipWith f (as.take (k + 1)) (bs.take (k + 1)) =
      List.zipWith f (as.take k) (bs.take k) ++ [f as[k] bs[k]] := by
  rw [List.take_succ, List.take_succ, List.getElem?_eq_getElem ha, List.getElem?_eq_getElem hb,
    List.zipWith_append]
  · rfl
  · rw [List.length_take, List.length_take]; omega

theorem zipWith_take_length {α β γ : Type} (f : α → β → γ) (as : List α) (bs : List β) :
    List.zipWith f (as.take bs.length) bs = List.zipWith f as bs := by
  induction as generalizing bs with
  | nil => simp
  | cons a t ih =>
    cases bs with
    | nil => simp
    | cons b u => simp [ih]

/-- Invariant of the closing loop of `plots`: after `m` iterations the
chart has gained one area series per name and row, in order. -/
theorem plots_add_loop {F : Type} (names : List String) (y : List (List (LineData F)))
    (line : Line F) (m : Nat) (hn : m ≤ names.length) (hy : m ≤ y.length) :
    (List.range m).foldlM (plotsAddStep names y) line =
      (.ok { line with
        MultiSeries := line.MultiSeries ++
          List.zipWith areaSeries (names.take m) (y.take m) } : Except Panic _) := by
  induction m with
  | zero => simp [pure, Except.pure]
  | succ k ih =>
    have hkn : k < names.length := hn
    have hky : k < y.length := hy
    rw [List.range_succ, List.foldlM_append, ih (Nat.le_of_succ_le hn) (Nat.le_of_succ_le hy)]
    simp only [List.foldlM_cons, List.foldlM_nil, plotsAddStep, index_of_lt _ _ hkn,
      index_of_lt _ _ hky, bind, Except.bind, pure, Except.pure, Line.AddSeries,
      zipWith_take_succ _ _ _ _ hkn hky, List.append_assoc]
    rfl

/-- The closing loop of `plots` over all rows, given enough names. -/
theorem plots_add_all {F : Type} (names : List String) (y : List (List (LineData F)))
    (line : Line F) (k : Nat) (hk : k = y.length) (hn : y.length ≤ names.length) :
    (List.range k).foldlM (plotsAddStep names y) line =
      (.ok { line with
        MultiSeries := line.MultiSeries ++ List.zipWith areaSeries names y } :
        Except Panic _) := by
  subst hk
  rw [plots_add_loop names y line y.length hn (Nat.le_refl _), List.take_length,
    zipWith_take_length]

theorem index_zero_cons {α : Type} (a : α) (t : List α) : index (a :: t) 0 = .ok a := by
  simp [index]

/-- With enough samples in every signal and enough names, `plots` returns
`overlayChart`. -/
theorem plots_ok {F : Type} (env : Env F) (chartID : String) (s0 : Signal F)
    (rest : List (Signal F)) (names : List String) (o : List GlobalOpts)
    (hlen : ∀ t ∈ rest, s0.Num ≤ t.Num) (hnames : rest.length + 1 ≤ names.length) :
    plots env chartID (s0 :: rest) names o =
      .ok (some (overlayChart env chartID s0 (s0 :: rest) names o)) := by
  have hall : ∀ t ∈ s0 :: rest, s0.Num ≤ t.Num := by
    intro t ht
    rcases List.mem_cons.mp ht with h | h
    · rw [h]
    · exact hlen t h
  have hloop := plots_loop env (s0 :: rest) s0 s0.Num hall
  have hadd := fun line => plots_add_all names
    ((s0 :: rest).map (fun t => (t.Samples.take s0.Num).map point)) line (s0 :: rest).length
    (by simp) (by simpa using hnames)
  unfold plots
  rw [if_neg (by simp), index_zero_cons]
  simp only [bind, Except.bind, hloop, hadd, pure, Except.pure]
  rfl

/-- When some signal is shorter than the first, `plots` panics. -/
theorem plots_panics {F : Type} (env : Env F) (chartID : String) (s0 : Signal F)
    (rest : List (Signal F)) (names : List String) (o : List GlobalOpts)
    (hshort : ∃ t ∈ rest, t.Num < s0.Num) :
    plots env chartID (s0 :: rest) names o = .error .indexOutOfRange := by
  obtain ⟨t, ht, hlt⟩ := hshort
  unfold plots
  rw [if_neg (by simp), index_zero_cons]
  cases hl : (List.range s0.Num).foldlM (plotsStep env (s0 :: rest) s0)
      ([], List.replicate (s0 :: rest).length []) with
  | error e =>
    cases e
    simp only [bind, Except.bind, hl]
  | ok acc =>
    have := plots_loop_bound env (s0 :: rest) s0 s0.Num _ _ hl t (List.mem_cons_of_mem _ ht)
    omega

/-- The result of `plot`: it never panics and returns `lineChart`. -/
theorem plot_ok {F : Type} (env : Env F) (chartID : String) (s : Signal F) (name : String)
    (color : String) (o : List GlobalOpts) :
    plot env chartID s name color o = .ok (lineChart env chartID s name color o) := by
  have hloop := plot_loop env s s.Num (Nat.le_refl _)
  unfold plot
  simp only [bind, Except.bind, hloop, pure, Except.pure]
  rw [Signal.Num, List.take_length]
  rfl

/-- The closing loop of `plots` leaves the x-axis alone. -/
theorem plots_add_xAxis {F : Type} (names : List String) (y : List (List (LineData F)))
    (m : Nat) :
    ∀ (line line' : Line F),
      (List.range m).foldlM (plotsAddStep names y) line = .ok line' →
      line'.xAxisData = line.xAxisData := by
  induction m with
  | zero =>
    intro line line' h
    simp only [List.range_zero, List.foldlM_nil, pure, Except.pure] at h
    cases h
    rfl
  | succ k ih =>
    intro line line' h
    rw [List.range_succ, List.foldlM_append] at h
    cases h1 : (List.range k).foldlM (plotsAddStep names y) line with
    | error e => simp [h1, bind, Except.bind] at h
    | ok l1 =>
      rw [h1] at h
      simp only [bind, Except.bind, List.foldlM_cons, List.foldlM_nil, plotsAddStep, index] at h
      cases hn : names[k]? with
      | none => simp [hn] at h
      | some nm =>
        cases hy : y[k]? with
        | none => simp [hn, hy] at h
        | some row =>
          simp only [hn, hy, pure, Except.pure] at h
          cases h
          exact ih line l1 h1

/-- Whenever `plots` returns a chart, its x-axis is the label list of the
first signal. -/
theorem plots_xAxis {F : Type} (env : Env F) (chartID : String) (s0 : Signal F)
    (rest : List (Signal F)) (names : List String) (o : List GlobalOpts) (line : Line F)
    (h : plots env chartID (s0 :: rest) names o = .ok (some line)) :
    line.xAxisData = (List.range s0.Num).map (fun i => env.label i s0.SampleRate) := by
  unfold plots at h
  rw [if_neg (by simp), index_zero_cons] at h
  simp only [bind, Except.bind] at h
  cases hl : (List.range s0.Num).foldlM (plotsStep env (s0 :: rest) s0)
      ([], List.replicate (s0 :: rest).length []) with
  | error e =>
    rw [hl] at h
    simp only [reduceCtorEq] at h
  | ok acc =>
    have hb := plots_loop_bound env (s0 :: rest) s0 s0.Num _ _ hl
    have hloop := plots_loop env (s0 :: rest) s0 s0.Num hb
    rw [hloop] at h
    simp only at h
    cases ha : (List.range (s0 :: rest).length).foldlM
        (plotsAddStep names ((s0 :: rest).map (fun t => (t.Samples.take s0.Num).map point)))
        ((((NewLine F env.lib chartID).SetGlobalOptions
          [ WithInitializationOpts env.lib { Width := "3000px", Theme := ThemeShine },
            WithLegendOpts { Show := true, Data := .names names },
            WithTooltipOpts { Show := true, Trigger := "axis", TriggerOn := "mousemove" } ]
          ).SetGlobalOptions o).SetXAxis
            ((List.range s0.Num).map (fun i => env.label i s0.SampleRate))) with
    | error e =>
      rw [ha] at h
      simp only [reduceCtorEq] at h
    | ok l1 =>
      rw [ha] at h
      simp only [pure, Except.pure, Except.ok.injEq, Option.some.injEq] at h
      subst h
      exact plots_add_xAxis _ _ _ _ _ ha

theorem length_eq_zero_iff (s : String) : s.length = 0 ↔ s = "" := by
  cases s with
  | mk data =>
    simp only [String.length, List.length_eq_zero]
    constructor
    · intro h; rw [h]
    · intro h; exact congrArg String.data h

theorem zipWith_areaSeries_names {F : Type} (names : List String)
    (rows : List (List (LineData F))) (h : names.length = rows.length) :
    (List.zipWith areaSeries names rows).map (fun ser => ser.Name) = names := by
  induction names generalizing rows with
  | nil => simp
  | cons a t ih =>
    cases rows with
    | nil => simp at h
    | cons b u =>
      simp only [List.zipWith_cons_cons, List.map_cons, areaSeries]
      rw [ih u (by simpa using h)]

theorem zipWith_areaSeries_rows {F : Type} (names : List String)
    (rows : List (List (LineData F))) (h : names.length = rows.length) :
    (List.zipWith areaSeries names rows).map (fun ser => ser.Data) = rows := by
  induction names generalizing rows with
  | nil =>
    cases rows with
    | nil => rfl
    | cons b u => simp at h
  | cons a t ih =>
    cases rows with
    | nil => simp at h
    | cons b u =>
      simp only [List.zipWith_cons_cons, List.map_cons, areaSeries]
      rw [ih u (by simpa using h)]

/-- Reading point `i` of series `j` through the list of data rows. -/
theorem series_point {F : Type} (series : List (SingleSeries F)) (signals : List (Signal F))
    (n : Nat)
    (h : series.map (fun ser => ser.Data) =
      signals.map (fun t => (t.Samples.take n).map point))
    (j i : Nat) (hi : i < n) :
    ((series[j]?).bind (fun ser => ser.Data[i]?)).map (fun p => p.Value) =
      (signals[j]?).bind (fun t => t.Samples[i]?) := by
  have hj := congrArg (fun l => l[j]?) h
  simp only [List.getElem?_map] at hj
  cases hs : series[j]? with
  | none =>
    rw [hs] at hj
    cases ht : signals[j]? with
    | none => rfl
    | some t => rw [ht] at hj; simp at hj
  | some ser =>
    rw [hs] at hj
    cases ht : signals[j]? with
    | none => rw [ht] at hj; simp at hj
    | some t =>
      rw [ht] at hj
      simp only [Option.map_some', Option.some.injEq] at hj
      simp only [Option.some_bind, hj, List.getElem?_map, List.getElem?_take, hi, if_true,
        Option.map_map]
      cases t.Samples[i]? <;> rfl

/-- Every row has `n` points when every signal has at least `n` samples. -/
theorem series_length {F : Type} (series : List (SingleSeries F)) (signals : List (Signal F))
    (n : Nat)
    (h : series.map (fun ser => ser.Data) =
      signals.map (fun t => (t.Samples.take n).map point))
    (hn : ∀ t ∈ signals, n ≤ t.Num) :
    ∀ ser ∈ series, ser.Data.length = n := by
  intro ser hser
  have hm : ser.Data ∈ series.map (fun ser => ser.Data) := List.mem_map_of_mem _ hser
  rw [h] at hm
  obtain ⟨t, ht, heq⟩ := List.mem_map.mp hm
  rw [← heq, List.length_map, List.length_take]
  exact Nat.min_eq_left (hn t ht)

/-! ## Chart ids -/

/-- Options that leave the chart id alone, applied in order, commute with
replacing the id. -/
theorem foldl_withChartID (o : List GlobalOpts) (ho : ∀ opt ∈ o, KeepsChartID opt) :
    ∀ (bc : BaseConfiguration) (chartID : String),
      o.foldl (fun bc opt => opt bc) (bc.withChartID chartID) =
        (o.foldl (fun bc opt => opt bc) bc).withChartID chartID := by
  induction o with
  | nil => intro bc chartID; rfl
  | cons opt t ih =>
    intro bc chartID
    rw [List.foldl_cons, List.foldl_cons, ho opt (List.mem_cons_self _ _) bc chartID]
    exact ih (fun p hp => ho p (List.mem_cons_of_mem _ hp)) (opt bc) chartID

/-- The configuration `plot` sets carries the drawn chart id and nothing
else of it. -/
theorem plotConfig_withChartID {F : Type} (env : Env F) (chartID1 chartID2 : String)
    (s : Signal F) (name : String) :
    plotConfig env chartID2 s name = (plotConfig env chartID1 s name).withChartID chartID2 :=
  rfl

/-- The chart of `plot` for another drawn id is the same chart with that
id. -/
theorem lineChart_withChartID {F : Type} (env : Env F) (chartID1 chartID2 : String)
    (s : Signal F) (name : String) (color : String) (o : List GlobalOpts)
    (ho : ∀ opt ∈ o, KeepsChartID opt) :
    lineChart env chartID2 s name color o =
      (lineChart env chartID1 s name color o).withChartID chartID2 := by
  unfold lineChart Line.withChartID
  rw [plotConfig_withChartID env chartID1 chartID2, foldl_withChartID o ho]

/-! ## The claims -/

/-- C1: for a non-empty list of signals and a names list of the same
length, if every signal has at least as many samples as the first one,
`plots` returns a chart with one series per signal in input order; series
`j` is named `names[j]`, has exactly `signals[0].Num()` points, and its
`i`-th point carries `signals[j].Samples[i]`; the shared x-axis has
exactly `signals[0].Num()` labels. -/
theorem plots_aligned_series {F : Type} (env : Env F) (chartID : String) (s0 : Signal F)
    (rest : List (Signal F)) (names : List String) (o : List GlobalOpts)
    (hnames : names.length = (s0 :: rest).length)
    (hlen : ∀ t ∈ s0 :: rest, s0.Num ≤ t.Num) :
    ∃ line, plots env chartID (s0 :: rest) names o = .ok (some line) ∧
      line.xAxisData.length = s0.Num ∧
      line.MultiSeries.length = (s0 :: rest).length ∧
      line.MultiSeries.map (fun ser => ser.Name) = names ∧
      line.MultiSeries.map (fun ser => ser.Data) =
        (s0 :: rest).map (fun t =>
          (t.Samples.take s0.Num).map (fun v => LineData.mk v "none")) ∧
      (∀ ser ∈ line.MultiSeries, ser.Data.length = s0.Num) ∧
      (∀ j i : Nat, j < (s0 :: rest).length → i < s0.Num →
        ((line.MultiSeries[j]?).bind (fun ser => ser.Data[i]?)).map (fun p => p.Value) =
          ((s0 :: rest)[j]?).bind (fun t => t.Samples[i]?)) := by
  have hrows : (names.length = ((s0 :: rest).map
      (fun t => (t.Samples.take s0.Num).map (@point F))).length) := by
    rw [List.length_map]; exact hnames
  have hdata := zipWith_areaSeries_rows names _ hrows
  refine ⟨overlayChart env chartID s0 (s0 :: rest) names o,
    plots_ok env chartID s0 rest names o (fun t ht => hlen t (List.mem_cons_of_mem _ ht))
      (by rw [hnames]; rfl), ?_, ?_, zipWith_areaSeries_names names _ hrows, hdata,
    series_length _ _ _ hdata hlen, fun j i _ hi => series_point _ _ _ hdata j i hi⟩
  · simp [overlayChart]
  · have := congrArg List.length hdata
    rw [List.length_map, List.length_map] at this
    exact this

/-- Witness for C1: the signals `[1,2]` and `[10,20]` at rate `1` with
names `["a","b"]` give two series of two points over the labels
`["0.0","1.0"]`. -/
theorem plots_aligned_series_witness :
    ∃ line, plots exactEnv "chart-1" [sig 1 [1, 2], sig 1 [10, 20]] ["a", "b"] [] =
        .ok (some line) ∧
      line.xAxisData = ["0.0", "1.0"] ∧
      line.MultiSeries.map (fun ser => ser.Name) = ["a", "b"] ∧
      line.MultiSeries.map (fun ser => ser.Data.map (fun p => p.Value)) =
        [[⟨1, 1⟩, ⟨2, 1⟩], [⟨10, 1⟩, ⟨20, 1⟩]] := by
  obtain ⟨line, h, -, -, hn, hd, -, -⟩ :=
    plots_aligned_series exactEnv "chart-1" (sig 1 [1, 2]) [sig 1 [10, 20]] ["a", "b"] []
      (by decide) (by decide)
  have hx := plots_xAxis _ _ _ _ _ _ _ h
  refine ⟨line, h, ?_, hn, ?_⟩
  · rw [hx]; decide
  · have := congrArg (List.map (List.map (fun p : LineData Frac => p.Value))) hd
    rw [List.map_map] at this
    exact this.trans (by decide)

/-- C2: for every signal, zero-length included, `plot` does not fail; it
yields exactly `s.Num()` x-labels and a single series of exactly
`s.Num()` points, one per sample and in sample order, the `i`-th point
carrying `s.Samples[i]` with symbol `"none"`; for a zero-length signal
the x-labels and the points of the series are both empty. -/
theorem plot_one_point_per_sample {F : Type} (env : Env F) (chartID : String) (s : Signal F)
    (name : String) (color : String) (o : List GlobalOpts) :
    (∃ (line : Line F) (ser : SingleSeries F), plot env chartID s name color o = .ok line ∧
      line.xAxisData.length = s.Num ∧
      line.MultiSeries = [ser] ∧
      ser.Data.length = s.Num ∧
      ser.Data = s.Samples.map (fun v => LineData.mk v "none") ∧
      (∀ i : Nat, ser.Data[i]? = (s.Samples[i]?).map (fun v => LineData.mk v "none"))) ∧
    (∃ (line : Line F) (ser : SingleSeries F),
      plot env chartID { SampleRate := s.SampleRate, Samples := [] } name color o = .ok line ∧
      line.xAxisData = [] ∧ line.MultiSeries = [ser] ∧ ser.Data = []) := by
  refine ⟨⟨lineChart env chartID s name color o, _, plot_ok env chartID s name color o,
      ?_, rfl, ?_, rfl, ?_⟩,
    ⟨_, _, plot_ok env chartID _ name color o, rfl, rfl, rfl⟩⟩
  · simp [lineChart]
  · simp [Signal.Num]
  · intro i
    simp only [List.getElem?_map]
    rfl

/-- C3: the `i`-th x-label produced by `plot`, for `i` below the sample
count, is `i / sampleRate` printed with one decimal; and `plots` builds
the same label list from `signals[0]`: for every list starting with that
signal it returns a chart (whenever every other signal is at least as
long and there are enough names) whose x-label list is the one `plot`
produces for `signals[0]`, and no chart it returns has another one.  This
holds for every sample rate. -/
theorem xlabels_index_over_rate {F : Type} (env : Env F) (chartID : String) (s : Signal F)
    (name : String) (color : String) (o : List GlobalOpts) :
    ∃ line, plot env chartID s name color o = .ok line ∧
      (∀ i : Nat, i < s.Num →
        line.xAxisData[i]? = some (env.sprintf1 (env.div (env.ofInt i) s.SampleRate))) ∧
      (∀ (rest : List (Signal F)) (names : List String) (o2 : List GlobalOpts)
          (chartID2 : String),
        (∀ t ∈ rest, s.Num ≤ t.Num) → (s :: rest).length ≤ names.length →
          ∃ line2, plots env chartID2 (s :: rest) names o2 = .ok (some line2) ∧
            line2.xAxisData = line.xAxisData) ∧
      (∀ (rest : List (Signal F)) (names : List String) (o2 : List GlobalOpts)
          (chartID2 : String) (line2 : Line F),
        plots env chartID2 (s :: rest) names o2 = .ok (some line2) →
          line2.xAxisData = line.xAxisData) := by
  refine ⟨lineChart env chartID s name color o, plot_ok env chartID s name color o, ?_, ?_, ?_⟩
  · intro i hi
    simp only [lineChart, List.getElem?_map, List.getElem?_range hi, Option.map_some', Env.label]
  · intro rest names o2 chartID2 hlen hnames
    exact ⟨_, plots_ok env chartID2 s rest names o2 hlen hnames, rfl⟩
  · intro rest names o2 chartID2 line2 h
    exact plots_xAxis env chartID2 s rest names o2 line2 h

/-- Witness for C3: samples `[1,2,3]` at rate `2` give the labels
`["0.0","0.5","1.0"]`, from `plot` and from `plots` run on two signals. -/
theorem xlabels_index_over_rate_witness :
    (∃ line, plot exactEnv "chart-1" (sig 2 [1, 2, 3]) "history" "green" [] = .ok line ∧
      line.xAxisData = ["0.0", "0.5", "1.0"]) ∧
    (∃ line2, plots exactEnv "chart-2" [sig 2 [1, 2, 3], sig 2 [4, 5, 6]] ["a", "b"] [] =
        .ok (some line2) ∧
      line2.xAxisData = ["0.0", "0.5", "1.0"]) := by
  obtain ⟨line, h, hi, hex, -⟩ :=
    xlabels_index_over_rate exactEnv "chart-1" (sig 2 [1, 2, 3]) "history" "green" []
  have hx : line.xAxisData = ["0.0", "0.5", "1.0"] := by
    apply List.ext_getElem?
    intro i
    by_cases h3 : i < 3
    · rw [hi i h3]
      rcases (by omega : i = 0 ∨ i = 1 ∨ i = 2) with h0 | h0 | h0 <;> subst h0 <;> decide
    · have hlen : line.xAxisData.length = 3 := by
        rw [plot_ok] at h
        cases h
        decide
      rw [List.getElem?_eq_none (by omega), List.getElem?_eq_none (by simp; omega)]
  obtain ⟨line2, h2, hx2⟩ := hex [sig 2 [4, 5, 6]] ["a", "b"] [] "chart-2"
    (by decide) (by decide)
  exact ⟨⟨line, h, hx⟩, ⟨line2, h2, hx2.trans hx⟩⟩

/-- C4: for a non-empty list of signals, if every signal has at least as
many samples as the first one and there are at least as many names as
signals, `plots` reads nothing out of range and returns a chart; and if
some signal has fewer samples than the first one, `plots` reads that
signal out of bounds and panics. -/
theorem plots_bounds {F : Type} (env : Env F) (chartID : String) (s0 : Signal F)
    (rest : List (Signal F)) (names : List String) (o : List GlobalOpts) :
    ((∀ t ∈ s0 :: rest, s0.Num ≤ t.Num) → (s0 :: rest).length ≤ names.length →
      ∃ line, plots env chartID (s0 :: rest) names o = .ok (some line)) ∧
    ((∃ t ∈ s0 :: rest, t.Num < s0.Num) →
      plots env chartID (s0 :: rest) names o = .error .indexOutOfRange) := by
  constructor
  · intro hlen hnames
    exact ⟨_, plots_ok env chartID s0 rest names o
      (fun t ht => hlen t (List.mem_cons_of_mem _ ht)) hnames⟩
  · rintro ⟨t, ht, hlt⟩
    rcases List.mem_cons.mp ht with h | h
    · rw [h] at hlt; exact absurd hlt (Nat.lt_irrefl _)
    · exact plots_panics env chartID s0 rest names o ⟨t, h, hlt⟩

/-- Witness for C4: a longer second signal and a spare name are fine; a
shorter second signal makes `plots` panic. -/
theorem plots_bounds_witness :
    (∃ line, plots exactEnv "chart-1" [sig 1 [1, 2], sig 1 [10, 20, 30]] ["a", "b", "c"] [] =
      .ok (some line)) ∧
    plots exactEnv "chart-1" [sig 1 [1, 2], sig 1 [10]] ["a", "b"] [] =
      .error .indexOutOfRange :=
  ⟨(plots_bounds exactEnv "chart-1" (sig 1 [1, 2]) [sig 1 [10, 20, 30]] ["a", "b", "c"] []).1
      (by decide) (by decide),
   (plots_bounds exactEnv "chart-1" (sig 1 [1, 2]) [sig 1 [10]] ["a", "b"] []).2
      ⟨sig 1 [10], by decide, by decide⟩⟩

/-- C5: called with no signals, `plots` returns the nil chart and does
not fail, whatever the names and the options are. -/
theorem plots_no_signals {F : Type} (env : Env F) (chartID : String) (names : List String)
    (o : List GlobalOpts) :
    plots env chartID [] names o = .ok none := rfl

/-- C6: when the namespace parameter or the job-name parameter is empty,
`Display` answers 400 with no body and makes no call at all: no job
lookup, no metric context, no engine call, no rendering. -/
theorem Display_empty_param {F : Type} (env : Env F) (dh : Collaborators F)
    (nameSpace name : String) (h : nameSpace = "" ∨ name = "") :
    Display env dh nameSpace name =
      { calls := [], outcome := .responded { status := 400, body := .empty } } := by
  have h1 : nameSpace.length = 0 ∨ name.length = 0 := by
    rw [length_eq_zero_iff, length_eq_zero_iff]; exact h
  unfold Display
  rw [if_pos h1]
  rfl

/-- Witness for C6: an empty namespace, and an empty job name. -/
theorem Display_empty_param_witness :
    Display exactEnv alignedEngine "" "job" =
        { calls := [], outcome := .responded { status := 400, body := .empty } } ∧
      Display exactEnv alignedEngine "default" "" =
        { calls := [], outcome := .responded { status := 400, body := .empty } } :=
  ⟨Display_empty_param exactEnv alignedEngine "" "job" (Or.inl rfl),
   Display_empty_param exactEnv alignedEngine "default" "" (Or.inr rfl)⟩

/-- C7: with non-empty parameters and a successful job lookup, if the
first prediction metric has an algorithm type other than DSP, `Display`
answers 400 and never calls the engine's debug entrypoint, whatever the
later metrics are. -/
theorem Display_unsupported_algorithm {F : Type} (env : Env F) (dh : Collaborators F)
    (nameSpace name : String) (tsp : TimeSeriesPrediction) (m0 : PredictionMetric)
    (later : List PredictionMetric)
    (hns : nameSpace ≠ "") (hname : name ≠ "")
    (hget : dh.Get nameSpace name = .ok tsp)
    (hm : tsp.Spec.PredictionMetrics = m0 :: later)
    (halg : m0.Algorithm.AlgorithmType ≠ AlgorithmTypeDSP) :
    Display env dh nameSpace name =
        { calls := [.get nameSpace name],
          outcome := .responded { status := 400, body := .empty } } ∧
      Call.debug ∉ (Display env dh nameSpace name).calls := by
  have h1 : ¬ (nameSpace.length = 0 ∨ name.length = 0) := by
    rw [length_eq_zero_iff, length_eq_zero_iff]
    exact fun h => h.elim hns hname
  have hD : Display env dh nameSpace name =
      { calls := [.get nameSpace name],
        outcome := .responded { status := 400, body := .empty } } := by
    unfold Display
    rw [if_neg h1, hget]
    simp only [hm]
    rw [if_neg (fun h => halg h.1)]
    rfl
  refine ⟨hD, ?_⟩
  rw [hD]
  simp

/-- Witness for C7: a job whose first metric is a percentile metric and
whose second metric is a DSP metric. -/
theorem Display_unsupported_algorithm_witness :
    Display exactEnv (fixedCollaborators (.ok percentileFirstJob) (.error "unused"))
        "default" "job" =
      { calls := [.get "default" "job"],
        outcome := .responded { status := 400, body := .empty } } :=
  (Display_unsupported_algorithm exactEnv
    (fixedCollaborators (.ok percentileFirstJob) (.error "unused")) "default" "job"
    percentileFirstJob _ _ (by decide) (by decide) rfl rfl (by decide)).1

/-- C8 fails as stated: on a lookup that answers "not found" the response
is not the empty-body 400. -/
theorem Display_not_found_not_bad_request :
    (Display exactEnv notFoundLookup "default" "job").outcome ≠
      .responded { status := 400, body := .empty } := by
  decide

/-- C8, amended: with non-empty parameters, when the job lookup fails (a
job that is not found included), `Display` makes no further call and
answers through the shared response writer with a structured error
payload carrying the lookup error, never with an empty body. -/
theorem Display_lookup_failure {F : Type} (env : Env F) (dh : Collaborators F)
    (nameSpace name : String) (err : Err)
    (hns : nameSpace ≠ "") (hname : name ≠ "")
    (hget : dh.Get nameSpace name = .error err) :
    Display env dh nameSpace name =
        { calls := [.get nameSpace name],
          outcome := .responded { status := dh.errorStatus err, body := .errorPayload err } } ∧
      (Display env dh nameSpace name).outcome ≠
        .responded { status := 400, body := .empty } := by
  have h1 : ¬ (nameSpace.length = 0 ∨ name.length = 0) := by
    rw [length_eq_zero_iff, length_eq_zero_iff]
    exact fun h => h.elim hns hname
  have hD : Display env dh nameSpace name =
      { calls := [.get nameSpace name],
        outcome := .responded { status := dh.errorStatus err, body := .errorPayload err } } := by
    unfold Display
    rw [if_neg h1, hget]
    rfl
  refine ⟨hD, ?_⟩
  rw [hD]
  simp

/-- Witness for amended C8: the lookup that answers "not found". -/
theorem Display_lookup_failure_witness :
    Display exactEnv notFoundLookup "default" "job" =
      { calls := [.get "default" "job"],
        outcome := .responded { status := 200, body := .errorPayload "not found" } } :=
  (Display_lookup_failure exactEnv notFoundLookup "default" "job" "not found"
    (by decide) (by decide) rfl).1

/-- C9 fails as stated: two runs of `plot` on the same signal, name, color
and options, for which the chart library draws two different ids, return
different chart descriptors. -/
theorem plot_chart_id_differs :
    plot exactEnv "chart-1" (sig 2 [1, 2, 3]) "history" "green" [] ≠
      plot exactEnv "chart-2" (sig 2 [1, 2, 3]) "history" "green" [] := by
  intro h
  have h2 := congrArg
    (fun r => r.toOption.map (fun line => line.config.Initialization.ChartID)) h
  revert h2
  decide

/-- C9, amended: for every signal, display name, color and options that
leave the chart id alone, two runs of `plot` on identical inputs return
chart descriptors that agree in every field except the chart id; each
descriptor carries the id the chart library drew for it. -/
theorem plot_same_up_to_chart_id {F : Type} (env : Env F) (chartID1 chartID2 : String)
    (s : Signal F) (name : String) (color : String) (o : List GlobalOpts)
    (ho : ∀ opt ∈ o, KeepsChartID opt) :
    ∃ line, plot env chartID1 s name color o = .ok line ∧
      line.config.Initialization.ChartID = chartID1 ∧
      plot env chartID2 s name color o = .ok (line.withChartID chartID2) := by
  refine ⟨lineChart env chartID1 s name color o, plot_ok env chartID1 s name color o, ?_, ?_⟩
  · have h := lineChart_withChartID env chartID1 chartID1 s name color o ho
    rw [h]
    rfl
  · rw [plot_ok, lineChart_withChartID env chartID1 chartID2 s name color o ho]

/-- Witness for amended C9: the history chart of `Display`, whose only
extra option sets the title. -/
theorem plot_same_up_to_chart_id_witness :
    ∃ line, plot exactEnv "chart-1" (sig 2 [1, 2, 3]) "history" "green"
          [WithTitleOpts { Title := "history" }] = .ok line ∧
      line.config.Initialization.ChartID = "chart-1" ∧
      plot exactEnv "chart-2" (sig 2 [1, 2, 3]) "history" "green"
          [WithTitleOpts { Title := "history" }] = .ok (line.withChartID "chart-2") :=
  plot_same_up_to_chart_id exactEnv "chart-1" "chart-2" (sig 2 [1, 2, 3]) "history" "green"
    [WithTitleOpts { Title := "history" }]
    (fun opt hopt => by
      rw [List.mem_singleton.mp hopt]
      intro bc chartID
      rfl)

end Crane
